import Mathlib

/-!
Verification of the SweatSync workout tracker core
(`src/server/models/database.js` and `src/server/routes/workouts.js`).

The server stores JSON documents (request bodies, plan documents, workout
payloads) and keeps three SQLite tables: `users`, `workouts`, `workout_plans`.
We shallowly embed the JSON values the handlers manipulate, the two tables the
claims touch, the data-access methods of the `Database` class, and the Express
route handlers for `/plan`, `/upload-plan`, `/today`, `/complete`, `/history`
and `/delete`.

Modelling conventions:
  - `JSON.stringify` on insert and `JSON.parse` on read (an external library
    pair that is the identity on JSON trees) are modelled as the identity:
    the `workout_data` / `plan_data` columns hold the JSON tree itself.
  - JavaScript `undefined` (absent object key) is represented as `Json.null`;
    the two are indistinguishable for the truthiness tests the code performs.
  - Asynchronous store failures that the code handles in callbacks are
    modelled as explicit Boolean failure oracles passed to the operation.
  - SQL `ORDER BY date DESC` is modelled as a sort by SQLite's storage-class
    ordering (NULL, then numerics, then text lexicographically); SQLite does
    not specify the order of ties, so any sort of the filtered rows is a
    faithful model.
-/

namespace SweatSync

/-- JSON values as manipulated by the route handlers. Numbers are modelled as
integers (every numeric literal the claims exercise is integral). -/
inductive Json where
  | null
  | bool (b : Bool)
  | num (n : Int)
  | str (s : String)
  | arr (elems : List Json)
  | obj (fields : List (String × Json))

/-- JavaScript truthiness of a JSON value (`!x` in the handlers is
`!jsTruthy x`): null/undefined, false, 0 and the empty string are falsy;
every array and object is truthy. -/
def jsTruthy : Json → Bool
  | .null => false
  | .bool b => b
  | .num n => n != 0
  | .str s => s != ""
  | .arr _ => true
  | .obj _ => true

/-- Property access `j[key]` / `j.key`: field lookup on objects, `undefined`
(modelled as `Json.null`) on everything else. -/
def jsGet (j : Json) (key : String) : Json :=
  match j with
  | .obj fields => ((fields.find? (fun f => f.fst == key)).map Prod.snd).getD .null
  | _ => .null

/-- Test for `Json.null` (i.e. JavaScript `null`/`undefined`). -/
def Json.isNull : Json → Bool
  | .null => true
  | _ => false

/-- `Object.keys`: field names of an object, index strings of an array,
empty otherwise. -/
def jsKeys : Json → List String
  | .obj fields => fields.map Prod.fst
  | .arr elems => (List.range elems.length).map toString
  | _ => []

/-- `typeof j === "object"` in JavaScript: true for objects, arrays and null. -/
def jsTypeofObject : Json → Bool
  | .obj _ => true
  | .arr _ => true
  | .null => true
  | _ => false

/-- One row of the `workouts` table. `date` holds the bound JSON value of the
request's date field; `workout_data` holds the JSON tree whose
stringification the code stores. -/
structure WorkoutRow where
  id : Nat
  user_id : Nat
  date : Json
  workout_data : Json

/-- One row of the `workout_plans` table. -/
structure PlanRow where
  id : Nat
  user_id : Nat
  name : Json
  plan_data : Json
  active : Bool

/-- The persistent store: the two tables the claims touch, plus the
autoincrement counters. -/
structure DB where
  workouts : List WorkoutRow
  plans : List PlanRow
  nextWorkoutId : Nat
  nextPlanId : Nat

/-- SQLite storage-class rank used by `ORDER BY`: NULL sorts before numeric
values (booleans bind as 0/1), which sort before text. -/
def sqliteRank : Json → Nat
  | .null => 0
  | .bool _ => 1
  | .num _ => 1
  | .str _ => 2
  | .arr _ => 3
  | .obj _ => 4

/-- Numeric value used to compare two values of numeric storage class. -/
def sqliteNumVal : Json → Int
  | .bool b => if b then 1 else 0
  | .num n => n
  | _ => 0

/-- Text value used to compare two values of text storage class. -/
def sqliteStrVal : Json → String
  | .str s => s
  | _ => ""

/-- Lexicographic (memcmp-style) comparison of two character lists by code
point, the order SQLite uses for text with the default BINARY collation. -/
def charListLe : List Char → List Char → Bool
  | [], _ => true
  | _ :: _, [] => false
  | a :: as, b :: bs =>
    if a.toNat < b.toNat then true
    else if b.toNat < a.toNat then false
    else charListLe as bs

/-- Text comparison for SQLite ordering. -/
def strLe (a b : String) : Bool :=
  charListLe a.toList b.toList

/-- Sort key of a stored value: storage-class rank, then numeric value, then
text value, compared lexicographically. -/
def sqliteKey (j : Json) : Nat × Int × String :=
  (sqliteRank j, sqliteNumVal j, sqliteStrVal j)

/-- Lexicographic comparison of sort keys. -/
def lexLe (x y : Nat × Int × String) : Bool :=
  decide (x.1 < y.1) ||
    (decide (x.1 = y.1) &&
      (decide (x.2.1 < y.2.1) ||
        (decide (x.2.1 = y.2.1) && strLe x.2.2 y.2.2)))

/-- SQLite comparison of two stored `date` values, as used by
`ORDER BY date`. -/
def sqliteLe (a b : Json) : Bool :=
  lexLe (sqliteKey a) (sqliteKey b)

/-- Descending-by-date order on workout rows (`ORDER BY date DESC`). -/
def dateDesc (a b : WorkoutRow) : Prop :=
  sqliteLe b.date a.date = true

instance : DecidableRel dateDesc := fun a b => by
  unfold dateDesc
  infer_instance

/-- Outcome of `Database.deleteWorkout`: the promise either rejects with
`Error("Workout not found or access denied")` or resolves with
`{deleted, workoutId, changesCount}`. -/
inductive DeleteOutcome where
  | notFoundOrDenied
  | deleted (workoutId : Nat) (changesCount : Nat)

/-- Outcome of `Database.saveUserWorkoutPlan`: rejection with a store error,
or resolution with the inserted row. -/
inductive SaveOutcome where
  | dbError
  | saved (row : PlanRow)

/-- `Database.saveWorkout`: `INSERT INTO workouts (user_id, date, workout_data)`
with the payload stringified; resolves with the new row id. -/
def saveWorkout (userId : Nat) (date workoutData : Json) (db : DB) :
    WorkoutRow × DB :=
  let row : WorkoutRow :=
    { id := db.nextWorkoutId, user_id := userId, date := date,
      workout_data := workoutData }
  (row, { db with workouts := db.workouts ++ [row],
                  nextWorkoutId := db.nextWorkoutId + 1 })

/-- `Database.deleteWorkout`: first `SELECT id FROM workouts WHERE id = ? AND
user_id = ?`; if no row matches, reject with the not-found-or-denied error;
otherwise `DELETE ... WHERE id = ? AND user_id = ?` and resolve with
`this.changes` as `changesCount`. -/
def deleteWorkout (workoutId userId : Nat) (db : DB) : DeleteOutcome × DB :=
  match db.workouts.find? (fun r => r.id == workoutId && r.user_id == userId) with
  | none => (.notFoundOrDenied, db)
  | some _ =>
    let remaining :=
      db.workouts.filter (fun r => !(r.id == workoutId && r.user_id == userId))
    (.deleted workoutId (db.workouts.length - remaining.length),
     { db with workouts := remaining })

/-- `Database.getWorkoutsByUser`: `SELECT * FROM workouts WHERE user_id = ?
ORDER BY date DESC LIMIT ?`, each returned row's `workout_data` parsed back
into its JSON tree (the identity in this model). A negative SQL LIMIT means
no limit. -/
def getWorkoutsByUser (userId : Nat) (limit : Int) (db : DB) : List WorkoutRow :=
  let sorted :=
    List.insertionSort dateDesc (db.workouts.filter (fun r => r.user_id == userId))
  if limit < 0 then sorted else sorted.take limit.toNat

/-- Deactivation step of `Database.saveUserWorkoutPlan`:
`UPDATE workout_plans SET active = 0 WHERE user_id = ?`. -/
def deactivateUserPlans (userId : Nat) (plans : List PlanRow) : List PlanRow :=
  plans.map (fun p => if p.user_id == userId then { p with active := false } else p)

/-- `Database.saveUserWorkoutPlan`: deactivate every plan of the user, then
insert the new plan with `active = 1`. The two statements run sequentially;
each may fail on its own (failure oracles). A failed UPDATE changes nothing;
a failed INSERT leaves the deactivation in place. -/
def saveUserWorkoutPlan (userId : Nat) (name planData : Json)
    (deactivateFails insertFails : Bool) (db : DB) : SaveOutcome × DB :=
  if deactivateFails then (.dbError, db)
  else
    let db1 := { db with plans := deactivateUserPlans userId db.plans }
    if insertFails then (.dbError, db1)
    else
      let row : PlanRow :=
        { id := db1.nextPlanId, user_id := userId, name := name,
          plan_data := planData, active := true }
      (.saved row, { db1 with plans := db1.plans ++ [row],
                              nextPlanId := db1.nextPlanId + 1 })

/-- `Database.getUserWorkoutPlan`: `SELECT * FROM workout_plans WHERE
user_id = ? AND active = 1`, resolving `null` when no row matches. -/
def getUserWorkoutPlan (userId : Nat) (db : DB) : Option PlanRow :=
  db.plans.find? (fun p => p.user_id == userId && p.active)

/-- HTTP responses the route handlers produce. -/
inductive Resp where
  | ok (body : Json)
  | badRequest (msg : String)
  | forbidden (msg : String)
  | notFound (msg : String)
  | serverError (msg : String)

/-- Test for a 200 response. -/
def Resp.isOk : Resp → Bool
  | .ok _ => true
  | _ => false

/-- Test for a 400 response. -/
def Resp.isBadRequest : Resp → Bool
  | .badRequest _ => true
  | _ => false

/-- Provenance of a resolved plan. -/
inductive PlanSource where
  | user
  | default

/-- The `planSource` string the handlers place in their JSON responses. -/
def sourceJson : PlanSource → Json
  | .user => .str "user"
  | .default => .str "default"

/-- Plan resolution shared by `GET /plan` and `GET /today`: try the user's
active plan (a query failure is caught and logged); if the query failed or
returned nothing, fall back to the default file-based plan (given here as
`defaultPlan`, the parsed content of `current-plan.json`). -/
def resolvePlan (fetchFails : Bool) (userId : Nat) (db : DB)
    (defaultPlan : Json) : Json × PlanSource :=
  if fetchFails then (defaultPlan, .default)
  else
    match getUserWorkoutPlan userId db with
    | some p => (p.plan_data, .user)
    | none => (defaultPlan, .default)

/-- `GET /plan`: resolve the plan and return it with its provenance and
display name. -/
def planHandler (fetchFails : Bool) (userId : Nat) (db : DB)
    (defaultPlan : Json) : Resp :=
  let plan := (resolvePlan fetchFails userId db defaultPlan).1
  let src := (resolvePlan fetchFails userId db defaultPlan).2
  .ok (.obj [("plan", plan),
             ("planSource", sourceJson src),
             ("planName", if jsTruthy (jsGet plan "name") then jsGet plan "name"
                          else .str "Current Plan")])

/-- `GET /today`: resolve the plan, look up `plan.schedule[dayName]` for the
lowercase day name computed from today's date; a falsy lookup yields the
rest-day response carrying the date and the plan source. Reading a property
of an absent `schedule` throws, which the catch turns into a 500. -/
def todayHandler (fetchFails : Bool) (userId : Nat) (db : DB)
    (defaultPlan : Json) (dayName date : String) : Resp :=
  let plan := (resolvePlan fetchFails userId db defaultPlan).1
  let src := (resolvePlan fetchFails userId db defaultPlan).2
  let sched := jsGet plan "schedule"
  if sched.isNull then .serverError "Failed to get todays workout"
  else if !(jsTruthy (jsGet sched dayName)) then
    .ok (.obj [("message", .str "No workout scheduled for today"),
               ("date", .str date),
               ("planSource", sourceJson src)])
  else
    .ok (.obj [("date", .str date),
               ("workout", jsGet sched dayName),
               ("planSource", sourceJson src),
               ("planName", if jsTruthy (jsGet plan "name") then jsGet plan "name"
                            else .str "Current Plan")])

/-- Per-exercise mapping in `POST /complete`:
`{name: e.name, sets: e.sets || [], notes: e.notes || ""}`. -/
def mapExercise (e : Json) : Json :=
  .obj [("name", jsGet e "name"),
        ("sets", if jsTruthy (jsGet e "sets") then jsGet e "sets" else .arr []),
        ("notes", if jsTruthy (jsGet e "notes") then jsGet e "notes" else .str "")]

/-- Payload `POST /complete` builds and stores:
`{workoutName: workout.name, exercises: exercises.map(...)}`. -/
def buildWorkoutData (workout : Json) (exercises : List Json) : Json :=
  .obj [("workoutName", jsGet workout "name"),
        ("exercises", .arr (exercises.map mapExercise))]

/-- `POST /complete`: reject with 400 when `date`, `workout` or `exercises`
is falsy; otherwise map the exercises and insert one row. Calling `.map` on a
truthy non-array, or reading `.name` of a null array element, throws and is
caught as a 500 with nothing inserted. -/
def completeHandler (userId : Nat) (body : Json) (db : DB) : Resp × DB :=
  let date := jsGet body "date"
  let workout := jsGet body "workout"
  let exercises := jsGet body "exercises"
  if !(jsTruthy date && jsTruthy workout && jsTruthy exercises) then
    (.badRequest "Date, workout, and exercises are required", db)
  else
    match exercises with
    | .arr es =>
      if es.any Json.isNull then (.serverError "Failed to save workout", db)
      else
        let saved := saveWorkout userId date (buildWorkoutData workout es) db
        (.ok (.obj [("message", .str "Workout saved successfully"),
                    ("workout", .obj [("id", .num (Int.ofNat saved.1.id)),
                                      ("userId", .num (Int.ofNat userId)),
                                      ("date", date),
                                      ("workoutData", saved.1.workout_data)])]),
         saved.2)
    | _ => (.serverError "Failed to save workout", db)

/-- `POST /upload-plan`: reject with 400 when `name` or `planData` is falsy,
when `planData.schedule` is falsy or not of object type, or when the schedule
has no keys; otherwise save the plan via `saveUserWorkoutPlan` (a store
failure surfaces as an error response, after any partial mutation the store
performed). -/
def uploadPlanHandler (userId : Nat) (body : Json)
    (deactivateFails insertFails : Bool) (db : DB) : Resp × DB :=
  let name := jsGet body "name"
  let planData := jsGet body "planData"
  if !(jsTruthy name && jsTruthy planData) then
    (.badRequest "Workout plan name and data are required", db)
  else if !(jsTruthy (jsGet planData "schedule") &&
            jsTypeofObject (jsGet planData "schedule")) then
    (.badRequest "Invalid workout plan format. Must include a schedule object.", db)
  else if (jsKeys (jsGet planData "schedule")).length == 0 then
    (.badRequest "Workout plan must include at least one day with exercises", db)
  else
    match saveUserWorkoutPlan userId name planData deactivateFails insertFails db with
    | (.dbError, db1) => (.serverError "Failed to upload workout plan", db1)
    | (.saved row, db1) =>
      (.ok (.obj [("message", .str "Workout plan uploaded successfully"),
                  ("plan", .obj [("id", .num (Int.ofNat row.id)),
                                 ("name", row.name),
                                 ("active", .bool row.active)])]),
       db1)

/-- `GET /history`: `parseInt(req.query.limit) || 10` — an absent or
unparseable limit (`none`) and a parsed 0 both become 10. -/
def historyLimit : Option Int → Int
  | none => 10
  | some n => if n == 0 then 10 else n

/-- `GET /history`: list the authenticated user's workouts with the effective
limit. -/
def historyHandler (userId : Nat) (limitParam : Option Int) (db : DB) :
    List WorkoutRow :=
  getWorkoutsByUser userId (historyLimit limitParam) db

/-- `POST /delete`: a falsy or non-numeric `workoutId` is a 400; the
not-found-or-denied rejection from `deleteWorkout` is mapped to a 403; a
resolution with zero changes would be a 404; otherwise 200. -/
def deleteHandler (workoutId : Nat) (userId : Nat) (db : DB) : Resp × DB :=
  if workoutId == 0 then (.badRequest "Valid workout ID is required", db)
  else
    match deleteWorkout workoutId userId db with
    | (.notFoundOrDenied, db1) =>
      (.forbidden "Access denied or workout not found", db1)
    | (.deleted wid changes, db1) =>
      if changes == 0 then
        (.notFound "Workout not found or already deleted", db1)
      else
        (.ok (.obj [("message", .str "Workout deleted successfully"),
                    ("workoutId", .num (Int.ofNat wid))]),
         db1)

/-- Number of active plan rows owned by an account. -/
def activeCount (userId : Nat) (db : DB) : Nat :=
  db.plans.countP (fun p => p.user_id == userId && p.active)

/-- The §3 invariant: at most one active plan per account. -/
def AtMostOneActive (db : DB) : Prop :=
  ∀ u : Nat, activeCount u db ≤ 1

theorem charListLe_trans (xs : List Char) : ∀ ys zs, charListLe xs ys = true →
    charListLe ys zs = true → charListLe xs zs = true := by
  induction xs with
  | nil => intro ys zs _ _; simp [charListLe]
  | cons a as ih =>
    intro ys zs h1 h2
    cases ys with
    | nil => simp [charListLe] at h1
    | cons b bs =>
      cases zs with
      | nil => simp [charListLe] at h2
      | cons c cs =>
        simp only [charListLe] at h1 h2 ⊢
        split_ifs at h1 h2 ⊢ with hab hba hbc hcb hac hca
        all_goals try rfl
        all_goals try omega
        exact ih bs cs h1 h2

theorem charListLe_total (xs : List Char) : ∀ ys,
    charListLe xs ys = true ∨ charListLe ys xs = true := by
  induction xs with
  | nil => intro ys; exact Or.inl (by simp [charListLe])
  | cons a as ih =>
    intro ys
    cases ys with
    | nil => exact Or.inr (by simp [charListLe])
    | cons b bs =>
      simp only [charListLe]
      split_ifs with hab hba hba'
      all_goals try exact Or.inl rfl
      all_goals try exact Or.inr rfl
      exact ih bs

theorem strLe_trans (a b c : String) (h1 : strLe a b = true)
    (h2 : strLe b c = true) : strLe a c = true :=
  charListLe_trans a.toList b.toList c.toList h1 h2

theorem strLe_total (a b : String) : strLe a b = true ∨ strLe b a = true :=
  charListLe_total a.toList b.toList

theorem lexLe_trans (x y z : Nat × Int × String) (h1 : lexLe x y = true)
    (h2 : lexLe y z = true) : lexLe x z = true := by
  simp only [lexLe, Bool.or_eq_true, Bool.and_eq_true, decide_eq_true_eq] at h1 h2 ⊢
  rcases h1 with h1 | ⟨he1, h1⟩
  · rcases h2 with h2 | ⟨he2, _⟩
    · exact Or.inl (by omega)
    · exact Or.inl (by omega)
  · rcases h2 with h2 | ⟨he2, h2⟩
    · exact Or.inl (by omega)
    · refine Or.inr ⟨by omega, ?_⟩
      rcases h1 with h1 | ⟨hn1, h1⟩
      · rcases h2 with h2 | ⟨hn2, _⟩
        · exact Or.inl (by omega)
        · exact Or.inl (by omega)
      · rcases h2 with h2 | ⟨hn2, h2⟩
        · exact Or.inl (by omega)
        · exact Or.inr ⟨by omega, strLe_trans _ _ _ h1 h2⟩

theorem lexLe_total (x y : Nat × Int × String) :
    lexLe x y = true ∨ lexLe y x = true := by
  simp only [lexLe, Bool.or_eq_true, Bool.and_eq_true, decide_eq_true_eq]
  rcases Nat.lt_trichotomy x.1 y.1 with h | h | h
  · exact Or.inl (Or.inl h)
  · rcases Int.lt_trichotomy x.2.1 y.2.1 with hn | hn | hn
    · exact Or.inl (Or.inr ⟨h, Or.inl hn⟩)
    · rcases strLe_total x.2.2 y.2.2 with hs | hs
      · exact Or.inl (Or.inr ⟨h, Or.inr ⟨hn, hs⟩⟩)
      · exact Or.inr (Or.inr ⟨h.symm, Or.inr ⟨hn.symm, hs⟩⟩)
    · exact Or.inr (Or.inr ⟨h.symm, Or.inl hn⟩)
  · exact Or.inr (Or.inl h)

instance : IsTrans WorkoutRow dateDesc where
  trans a b c h1 h2 :=
    lexLe_trans (sqliteKey c.date) (sqliteKey b.date) (sqliteKey a.date) h2 h1

instance : IsTotal WorkoutRow dateDesc where
  total a b := lexLe_total (sqliteKey b.date) (sqliteKey a.date)

theorem pairwise_getWorkoutsByUser (userId : Nat) (limit : Int) (db : DB) :
    List.Pairwise dateDesc (getWorkoutsByUser userId limit db) := by
  unfold getWorkoutsByUser
  have hs := List.sorted_insertionSort dateDesc
    (db.workouts.filter (fun r => r.user_id == userId))
  split
  · exact hs
  · exact List.Pairwise.sublist (List.take_sublist _ _) hs

theorem mem_getWorkoutsByUser {userId : Nat} {limit : Int} {db : DB}
    {r : WorkoutRow} (hr : r ∈ getWorkoutsByUser userId limit db) :
    r ∈ db.workouts ∧ r.user_id = userId := by
  unfold getWorkoutsByUser at hr
  have hr' : r ∈ List.insertionSort dateDesc
      (db.workouts.filter (fun r => r.user_id == userId)) := by
    split at hr
    · exact hr
    · exact List.take_subset _ _ hr
  have hm := (List.perm_insertionSort dateDesc _).mem_iff.mp hr'
  have hf := List.mem_filter.mp hm
  exact ⟨hf.1, by simpa using hf.2⟩

theorem countP_deactivate_self (u : Nat) (plans : List PlanRow) :
    (deactivateUserPlans u plans).countP (fun p => p.user_id == u && p.active) = 0 := by
  unfold deactivateUserPlans
  rw [List.countP_map]
  apply List.countP_eq_zero.mpr
  intro p _
  by_cases h : p.user_id == u
  · simp [Function.comp, h]
  · simp [Function.comp, h]

theorem countP_deactivate_other (u v : Nat) (hne : v ≠ u) (plans : List PlanRow) :
    (deactivateUserPlans u plans).countP (fun p => p.user_id == v && p.active) =
      plans.countP (fun p => p.user_id == v && p.active) := by
  unfold deactivateUserPlans
  rw [List.countP_map]
  congr 1
  funext p
  by_cases h : p.user_id == u
  · rw [beq_iff_eq] at h
    have hv : (p.user_id == v) = false := by
      rw [beq_eq_false_iff_ne]
      omega
    simp only [Function.comp, h, hv]
    simp [hv, h]
    intro h2
    omega
  · simp [Function.comp, h]

theorem deleteHandler_no_match (workoutId userId : Nat) (db : DB)
    (h : db.workouts.find? (fun r => r.id == workoutId && r.user_id == userId) = none)
    (h0 : workoutId ≠ 0) :
    deleteHandler workoutId userId db =
      (.forbidden "Access denied or workout not found", db) := by
  have h0' : (workoutId == 0) = false := beq_eq_false_iff_ne.mpr h0
  unfold deleteHandler deleteWorkout
  rw [h0', h]
  simp

theorem completeHandler_accepts (userId : Nat) (body : Json) (db : DB)
    (es : List Json) (hex : jsGet body "exercises" = Json.arr es)
    (hd : jsTruthy (jsGet body "date") = true)
    (hw : jsTruthy (jsGet body "workout") = true)
    (hnn : es.any Json.isNull = false) :
    (completeHandler userId body db).1.isOk = true ∧
    (completeHandler userId body db).2.workouts = db.workouts ++
      [{ id := db.nextWorkoutId, user_id := userId, date := jsGet body "date",
         workout_data := buildWorkoutData (jsGet body "workout") es }] := by
  unfold completeHandler
  rw [hex]
  simp only [hd, hw, show jsTruthy (Json.arr es) = true from rfl, hnn,
    Bool.and_self, Bool.not_true, Bool.false_eq_true, ite_false]
  simp [saveWorkout, Resp.isOk]

/-- An empty store. -/
def exDb : DB := { workouts := [], plans := [], nextWorkoutId := 1, nextPlanId := 1 }

/-- A completion request whose exercises list is empty (but present). -/
def exBody2 : Json :=
  .obj [("date", .str "2024-01-15"),
        ("workout", .obj [("name", .str "Push Day")]),
        ("exercises", .arr [])]

/-- A workout owned by account 2. -/
def exRow3 : WorkoutRow :=
  { id := 1, user_id := 2, date := .str "2024-01-01", workout_data := .obj [] }

/-- A store holding only account 2's workout. -/
def exDb3 : DB :=
  { workouts := [exRow3], plans := [], nextWorkoutId := 2, nextPlanId := 1 }

/-- An existing active plan owned by account 1, used as the prior plan in the
activation scenarios. -/
def exPlanRow1 : PlanRow :=
  { id := 1, user_id := 1, name := .str "Old",
    plan_data := .obj [("schedule", .obj [("monday", .obj [("name", .str "Push")])])],
    active := true }

/-- A store in which account 1 already has one active plan. -/
def exDb1 : DB :=
  { workouts := [], plans := [exPlanRow1], nextWorkoutId := 1, nextPlanId := 2 }

/-- Claim C1: uploading a plan first deactivates every plan of the owning
account and then inserts the new one as active, so the at-most-one-active
invariant is preserved in every outcome: any store failure leaves the account
with zero or its previous active plans (deactivation is all-or-nothing per
statement), a deactivate-succeeds/insert-fails run leaves exactly zero active
plans, and a fully successful run leaves exactly one. -/
theorem claim1_upload_preserves_at_most_one_active (userId : Nat)
    (name planData : Json) (dFail iFail : Bool) (db : DB)
    (hInv : AtMostOneActive db) :
    AtMostOneActive (saveUserWorkoutPlan userId name planData dFail iFail db).2 ∧
    (dFail = false → iFail = true →
      activeCount userId (saveUserWorkoutPlan userId name planData dFail iFail db).2 = 0) ∧
    (dFail = false → iFail = false →
      activeCount userId (saveUserWorkoutPlan userId name planData dFail iFail db).2 = 1) := by
  unfold saveUserWorkoutPlan
  cases dFail with
  | true =>
    refine ⟨by simpa using hInv, ?_, ?_⟩ <;> intro h <;> exact absurd h (by simp)
  | false =>
    cases iFail with
    | true =>
      simp only [Bool.false_eq_true, ite_false, ite_true]
      refine ⟨?_, ?_, ?_⟩
      · intro u
        by_cases hu : u = userId
        · subst hu
          simp only [activeCount]
          rw [countP_deactivate_self]
          omega
        · simp only [activeCount]
          rw [countP_deactivate_other userId u hu]
          exact hInv u
      · intro _ _
        simp only [activeCount]
        exact countP_deactivate_self userId db.plans
      · intro _ h
        exact absurd h (by simp)
    | false =>
      simp only [Bool.false_eq_true, ite_false]
      refine ⟨?_, ?_, ?_⟩
      · intro u
        by_cases hu : u = userId
        · subst hu
          simp only [activeCount, List.countP_append]
          rw [countP_deactivate_self]
          simp
        · simp only [activeCount, List.countP_append]
          rw [countP_deactivate_other userId u hu]
          have hb : (userId == u) = false := by
            rw [beq_eq_false_iff_ne]
            omega
          simp [List.countP_cons, hb]
          simpa using hInv u
      · intro _ h
        exact absurd h (by simp)
      · intro _ _
        simp only [activeCount, List.countP_append]
        rw [countP_deactivate_self]
        simp [List.countP_cons]

/-- Witness for C1: a store where account 1 already has an active plan
satisfies the invariant; uploading a second plan keeps the invariant and
leaves exactly one active plan. -/
theorem claim1_witness :
    AtMostOneActive exDb1 ∧
    AtMostOneActive (saveUserWorkoutPlan 1 (Json.str "New") (Json.obj []) false false exDb1).2 ∧
    activeCount 1 (saveUserWorkoutPlan 1 (Json.str "New") (Json.obj []) false false exDb1).2 = 1 :=
  have hInv : AtMostOneActive exDb1 := by
    intro u
    simp only [activeCount, exDb1, List.countP_cons, List.countP_nil]
    split_ifs <;> simp
  ⟨hInv,
   (claim1_upload_preserves_at_most_one_active 1 (Json.str "New") (Json.obj [])
      false false exDb1 hInv).1,
   (claim1_upload_preserves_at_most_one_active 1 (Json.str "New") (Json.obj [])
      false false exDb1 hInv).2.2 rfl rfl⟩

/-- Counterexample for C2: a completion whose exercises list is present but
empty is accepted with a 200 (an empty JavaScript array is truthy, so
`!exercises` does not reject it) and one row is inserted. -/
theorem claim2_counterexample :
    (completeHandler 1 exBody2 exDb).1.isOk = true ∧
    (completeHandler 1 exBody2 exDb).2.workouts.length = 1 := ⟨rfl, rfl⟩

/-- Claim C2 as amended: the completion validation is a presence (JavaScript
truthiness) check only. A request whose `date`, `workout` or `exercises`
field is falsy is rejected with the 400 validation response and no row is
inserted; a request whose three fields are truthy succeeds even when the
exercises list is empty, inserting exactly one row built from the
submission. -/
theorem claim2_presence_only_validation (userId : Nat) (body : Json) (db : DB) :
    ((jsTruthy (jsGet body "date") = false ∨ jsTruthy (jsGet body "workout") = false ∨
        jsTruthy (jsGet body "exercises") = false) →
      completeHandler userId body db =
        (.badRequest "Date, workout, and exercises are required", db)) ∧
    (∀ es : List Json, jsGet body "exercises" = Json.arr es →
      jsTruthy (jsGet body "date") = true → jsTruthy (jsGet body "workout") = true →
      es.any Json.isNull = false →
      (completeHandler userId body db).1.isOk = true ∧
      (completeHandler userId body db).2.workouts = db.workouts ++
        [{ id := db.nextWorkoutId, user_id := userId, date := jsGet body "date",
           workout_data := buildWorkoutData (jsGet body "workout") es }]) := by
  constructor
  · intro h
    unfold completeHandler
    rcases h with h | h | h <;> simp [h]
  · intro es hex hd hw hnn
    exact completeHandler_accepts userId body db es hex hd hw hnn

/-- Witness for C2: a bodyless request is rejected without mutation, and the
empty-exercises request is accepted. -/
theorem claim2_witness :
    completeHandler 1 (Json.obj []) exDb =
      (.badRequest "Date, workout, and exercises are required", exDb) ∧
    (completeHandler 1 exBody2 exDb).1.isOk = true :=
  ⟨(claim2_presence_only_validation 1 (Json.obj []) exDb).1 (Or.inl rfl),
   ((claim2_presence_only_validation 1 exBody2 exDb).2 [] rfl rfl rfl rfl).1⟩

/-- Counterexample for C3: for caller account 1, deleting workout id 1 (which
exists but belongs to account 2) and deleting workout id 99 (which does not
exist) produce identical externally visible outcomes — the same 403 response
and the same unchanged store — so the two cases are not distinguishable. -/
theorem claim3_counterexample :
    deleteHandler 1 1 exDb3 = deleteHandler 99 1 exDb3 ∧
    deleteHandler 1 1 exDb3 =
      (.forbidden "Access denied or workout not found", exDb3) := ⟨rfl, rfl⟩

/-- Claim C3 as amended: deleting a workout not owned by the caller does not
remove it, but the reported failure is the same 403
"Access denied or workout not found" response, unchanged store included,
that an absent (or already-deleted) id produces — existence failure and
ownership failure are externally indistinguishable. -/
theorem claim3_absent_and_foreign_same_outcome (workoutId otherId userId : Nat)
    (db : DB)
    (hown : ∀ r ∈ db.workouts, r.id = workoutId → r.user_id ≠ userId)
    (habs : ∀ r ∈ db.workouts, r.id ≠ otherId)
    (h0 : workoutId ≠ 0) (h0' : otherId ≠ 0) :
    deleteHandler workoutId userId db =
      (.forbidden "Access denied or workout not found", db) ∧
    deleteHandler otherId userId db =
      (.forbidden "Access denied or workout not found", db) ∧
    (deleteHandler workoutId userId db).2.workouts = db.workouts := by
  have hfind1 : db.workouts.find?
      (fun r => r.id == workoutId && r.user_id == userId) = none := by
    apply List.find?_eq_none.mpr
    intro r hr
    simp only [Bool.and_eq_true, beq_iff_eq, not_and]
    intro hid
    exact fun hu => hown r hr hid hu
  have hfind2 : db.workouts.find?
      (fun r => r.id == otherId && r.user_id == userId) = none := by
    apply List.find?_eq_none.mpr
    intro r hr
    simp only [Bool.and_eq_true, beq_iff_eq, not_and]
    intro hid
    exact absurd hid (habs r hr)
  have h1 := deleteHandler_no_match workoutId userId db hfind1 h0
  have h2 := deleteHandler_no_match otherId userId db hfind2 h0'
  exact ⟨h1, h2, by rw [h1]⟩

/-- Witness for C3: the concrete store from the counterexample instantiates
the amended statement. -/
theorem claim3_witness :
    deleteHandler 1 1 exDb3 =
      (.forbidden "Access denied or workout not found", exDb3) ∧
    deleteHandler 99 1 exDb3 =
      (.forbidden "Access denied or workout not found", exDb3) :=
  have h := claim3_absent_and_foreign_same_outcome 1 99 1 exDb3
    (by decide) (by decide) (by decide) (by decide)
  ⟨h.1, h.2.1⟩

/-- A candidate plan violating every per-day rule of the claim: the schedule
key is not a weekday name, the exercise name is empty, the kind is neither
"reps" nor "time", and the set count is 0. -/
def exBody4 : Json :=
  .obj [("name", .str "A"),
        ("planData", .obj [("schedule", .obj [("funday",
          .obj [("name", .str "X"),
                ("exercises", .arr [.obj [("name", .str ""),
                                          ("sets", .num 0),
                                          ("type", .str "bogus")]])])])])]

/-- Counterexample for C4: the upload handler accepts a plan whose schedule
key is not a weekday and whose exercise has an empty name, a bogus kind and a
zero set count, and it mutates the store by inserting the plan. -/
theorem claim4_counterexample :
    (uploadPlanHandler 1 exBody4 false false exDb).1.isOk = true ∧
    (uploadPlanHandler 1 exBody4 false false exDb).2.plans.length = 1 := ⟨rfl, rfl⟩

/-- Claim C4 as amended: upload validation is structural only — it requires a
truthy `name`, a truthy `planData`, a truthy object-typed `planData.schedule`
and at least one schedule key, and any upload failing one of these checks is
rejected with a 400 and no state mutation; weekday names, exercise names,
kinds and set counts are not checked, so any upload passing the structural
checks is stored (as active, when the store does not fail). -/
theorem claim4_structural_validation_only (userId : Nat) (body : Json)
    (dF iF : Bool) (db : DB) :
    ((jsTruthy (jsGet body "name") = false ∨
        jsTruthy (jsGet body "planData") = false ∨
        jsTruthy (jsGet (jsGet body "planData") "schedule") = false ∨
        jsTypeofObject (jsGet (jsGet body "planData") "schedule") = false ∨
        jsKeys (jsGet (jsGet body "planData") "schedule") = []) →
      ((uploadPlanHandler userId body dF iF db).1.isBadRequest = true ∧
       (uploadPlanHandler userId body dF iF db).2 = db)) ∧
    (jsTruthy (jsGet body "name") = true → jsTruthy (jsGet body "planData") = true →
      jsTruthy (jsGet (jsGet body "planData") "schedule") = true →
      jsTypeofObject (jsGet (jsGet body "planData") "schedule") = true →
      jsKeys (jsGet (jsGet body "planData") "schedule") ≠ [] →
      dF = false → iF = false →
      (uploadPlanHandler userId body dF iF db).1.isOk = true) := by
  constructor
  · intro h
    by_cases h1 : jsTruthy (jsGet body "name") = true ∧
        jsTruthy (jsGet body "planData") = true
    · by_cases h2 : jsTruthy (jsGet (jsGet body "planData") "schedule") = true ∧
          jsTypeofObject (jsGet (jsGet body "planData") "schedule") = true
      · have hk : jsKeys (jsGet (jsGet body "planData") "schedule") = [] := by
          rcases h with h | h | h | h | h
          · exact absurd h1.1 (by simp [h])
          · exact absurd h1.2 (by simp [h])
          · exact absurd h2.1 (by simp [h])
          · exact absurd h2.2 (by simp [h])
          · exact h
        simp [uploadPlanHandler, h1.1, h1.2, h2.1, h2.2, hk, Resp.isBadRequest]
      · rw [not_and_or] at h2
        rcases h2 with h2 | h2 <;> rw [Bool.not_eq_true] at h2 <;>
          simp [uploadPlanHandler, h1.1, h1.2, h2, Resp.isBadRequest]
    · rw [not_and_or] at h1
      rcases h1 with h1 | h1 <;> rw [Bool.not_eq_true] at h1 <;>
        simp [uploadPlanHandler, h1, Resp.isBadRequest]
  · intro hn hp hs ht hk hdF hiF
    subst hdF hiF
    have hk' : ((jsKeys (jsGet (jsGet body "planData") "schedule")).length == 0) = false := by
      rw [beq_eq_false_iff_ne]
      simpa [List.length_eq_zero] using hk
    simp [uploadPlanHandler, hn, hp, hs, ht, hk', saveUserWorkoutPlan, Resp.isOk]

/-- Witness for C4: an upload with no fields is rejected without mutation,
and the structurally valid but semantically invalid plan is accepted. -/
theorem claim4_witness :
    (uploadPlanHandler 1 (Json.obj []) false false exDb).1.isBadRequest = true ∧
    (uploadPlanHandler 1 (Json.obj []) false false exDb).2 = exDb ∧
    (uploadPlanHandler 1 exBody4 false false exDb).1.isOk = true :=
  have h1 := (claim4_structural_validation_only 1 (Json.obj []) false false exDb).1
    (Or.inl rfl)
  ⟨h1.1, h1.2,
   (claim4_structural_validation_only 1 exBody4 false false exDb).2
     rfl rfl rfl rfl (List.cons_ne_nil _ _) rfl rfl⟩

/-- An older workout of account 1. -/
def exR1 : WorkoutRow :=
  { id := 1, user_id := 1, date := .str "2024-01-01", workout_data := .obj [] }

/-- A workout of account 2 interleaved between account 1's workouts. -/
def exR2 : WorkoutRow :=
  { id := 2, user_id := 2, date := .str "2024-01-02", workout_data := .obj [] }

/-- The newest workout of account 1. -/
def exR3 : WorkoutRow :=
  { id := 3, user_id := 1, date := .str "2024-01-03", workout_data := .obj [] }

/-- A store with interleaved rows of accounts 1 and 2. -/
def exDb5 : DB :=
  { workouts := [exR1, exR2, exR3], plans := [], nextWorkoutId := 4, nextPlanId := 1 }

/-- Claim C5: listing history returns only rows whose owning account id
equals the requesting account, for every store state and limit. -/
theorem claim5_history_ownership (userId : Nat) (limit : Int) (db : DB)
    (r : WorkoutRow) (hr : r ∈ getWorkoutsByUser userId limit db) :
    r.user_id = userId :=
  (mem_getWorkoutsByUser hr).2

/-- Witness for C5: in a store interleaving accounts 1 and 2, a row returned
for account 1 is owned by account 1. -/
theorem claim5_witness :
    exR3 ∈ getWorkoutsByUser 1 10 exDb5 ∧ exR3.user_id = 1 :=
  have h : exR3 ∈ getWorkoutsByUser 1 10 exDb5 := List.Mem.head _
  ⟨h, claim5_history_ownership 1 10 exDb5 exR3 h⟩

/-- Store state after a successful DELETE of the rows matching the id and the
caller. -/
def dbAfterDelete (workoutId userId : Nat) (db : DB) : DB :=
  { db with workouts := db.workouts.filter (fun r => !(r.id == workoutId && r.user_id == userId)) }

theorem deleteHandler_found (workoutId userId : Nat) (db : DB) (w : WorkoutRow)
    (hf : db.workouts.find? (fun r => r.id == workoutId && r.user_id == userId) = some w)
    (h0 : (workoutId == 0) = false) :
    (deleteHandler workoutId userId db).2 = dbAfterDelete workoutId userId db := by
  unfold deleteHandler deleteWorkout dbAfterDelete
  rw [h0, hf]
  simp only [Bool.false_eq_true, ite_false]
  split <;> rfl

/-- Claim C6: deleting an id that no row of the store matches for the caller
reports the not-found failure response (never a crash — the handler is total
and returns an error response) and changes nothing; after a successful
delete, a second delete of the same id reports the same not-found failure;
and a delete never touches rows with a different id. -/
theorem claim6_delete_idempotent_not_found (workoutId userId : Nat) (db : DB) :
    ((∀ r ∈ db.workouts, ¬(r.id = workoutId ∧ r.user_id = userId)) → workoutId ≠ 0 →
      deleteHandler workoutId userId db =
        (.forbidden "Access denied or workout not found", db)) ∧
    ((deleteHandler workoutId userId db).1.isOk = true →
      deleteHandler workoutId userId (deleteHandler workoutId userId db).2 =
        (.forbidden "Access denied or workout not found",
          (deleteHandler workoutId userId db).2)) ∧
    (∀ r ∈ db.workouts, r.id ≠ workoutId →
      r ∈ (deleteHandler workoutId userId db).2.workouts) := by
  refine ⟨?_, ?_, ?_⟩
  · intro habs h0
    apply deleteHandler_no_match workoutId userId db ?_ h0
    apply List.find?_eq_none.mpr
    intro r hr
    simp only [Bool.and_eq_true, beq_iff_eq, not_and]
    intro hid hu
    exact habs r hr ⟨hid, hu⟩
  · by_cases h0 : (workoutId == 0) = true
    · intro hok
      exfalso
      unfold deleteHandler at hok
      rw [if_pos h0] at hok
      simp [Resp.isOk] at hok
    · have h0f : (workoutId == 0) = false := by simpa using h0
      have h0ne : workoutId ≠ 0 := beq_eq_false_iff_ne.mp h0f
      intro hok
      cases hf : db.workouts.find? (fun r => r.id == workoutId && r.user_id == userId) with
      | none =>
        exfalso
        rw [deleteHandler_no_match workoutId userId db hf h0ne] at hok
        simp [Resp.isOk] at hok
      | some w =>
        have hstate := deleteHandler_found workoutId userId db w hf h0f
        rw [hstate]
        apply deleteHandler_no_match _ _ _ ?_ h0ne
        apply List.find?_eq_none.mpr
        intro x hx
        have hx2 := (List.mem_filter.mp hx).2
        simp only [Bool.not_eq_true'] at hx2
        simp [hx2]
  · intro r hr hne
    by_cases h0 : (workoutId == 0) = true
    · unfold deleteHandler
      rw [if_pos h0]
      exact hr
    · have h0f : (workoutId == 0) = false := by simpa using h0
      have h0ne : workoutId ≠ 0 := beq_eq_false_iff_ne.mp h0f
      cases hf : db.workouts.find? (fun r => r.id == workoutId && r.user_id == userId) with
      | none =>
        rw [deleteHandler_no_match workoutId userId db hf h0ne]
        exact hr
      | some w =>
        rw [deleteHandler_found workoutId userId db w hf h0f]
        refine List.mem_filter.mpr ⟨hr, ?_⟩
        have hb : (r.id == workoutId) = false := beq_eq_false_iff_ne.mpr hne
        simp [hb]

/-- A workout of account 1 that will be deleted. -/
def exR6a : WorkoutRow :=
  { id := 1, user_id := 1, date := .str "2024-03-01", workout_data := .obj [] }

/-- An unrelated workout of account 1. -/
def exR6b : WorkoutRow :=
  { id := 2, user_id := 1, date := .str "2024-03-02", workout_data := .obj [] }

/-- A store with two workouts of account 1. -/
def exDb6 : DB :=
  { workouts := [exR6a, exR6b], plans := [], nextWorkoutId := 3, nextPlanId := 1 }

/-- Witness for C6: deleting a never-existing id reports not-found and leaves
the store unchanged; after a successful delete, the second delete of the same
id reports not-found, and the unrelated row survives. -/
theorem claim6_witness :
    (∀ r ∈ exDb3.workouts, ¬(r.id = 99 ∧ r.user_id = 1)) ∧
    deleteHandler 99 1 exDb3 = (.forbidden "Access denied or workout not found", exDb3) ∧
    (deleteHandler 1 1 exDb6).1.isOk = true ∧
    deleteHandler 1 1 (deleteHandler 1 1 exDb6).2 =
      (.forbidden "Access denied or workout not found", (deleteHandler 1 1 exDb6).2) ∧
    exR6b ∈ (deleteHandler 1 1 exDb6).2.workouts :=
  ⟨by decide, (claim6_delete_idempotent_not_found 99 1 exDb3).1 (by decide) (by decide),
   rfl, (claim6_delete_idempotent_not_found 1 1 exDb6).2.1 rfl,
   (claim6_delete_idempotent_not_found 1 1 exDb6).2.2 exR6b
     (List.Mem.tail _ (List.Mem.head _)) (by decide)⟩

/-- Claim C7: when the user-plan query fails or finds no active plan, plan
resolution does not abort the request — it returns the default file-based
plan with source = default, and the plan endpoint answers 200 with
planSource "default". -/
theorem claim7_fallback_to_default (fetchFails : Bool) (userId : Nat) (db : DB)
    (dp : Json)
    (h : fetchFails = true ∨ getUserWorkoutPlan userId db = none) :
    resolvePlan fetchFails userId db dp = (dp, PlanSource.default) ∧
    planHandler fetchFails userId db dp =
      .ok (.obj [("plan", dp), ("planSource", .str "default"),
                 ("planName", if jsTruthy (jsGet dp "name") then jsGet dp "name"
                              else .str "Current Plan")]) := by
  have hres : resolvePlan fetchFails userId db dp = (dp, PlanSource.default) := by
    rcases h with h | h
    · simp [resolvePlan, h]
    · cases fetchFails <;> simp [resolvePlan, h]
  refine ⟨hres, ?_⟩
  unfold planHandler
  rw [hres]
  rfl

/-- Witness for C7: a failed user-plan query resolves to the default plan. -/
theorem claim7_witness :
    resolvePlan true 7 exDb (Json.obj []) = (Json.obj [], PlanSource.default) :=
  (claim7_fallback_to_default true 7 exDb (Json.obj []) (Or.inl rfl)).1

/-- Claim C8: when the resolved plan's schedule exists but its entry for the
computed lowercase day name is absent or falsy, the today endpoint answers
200 (not an error) with the no-workout-scheduled message, the computed date
and the plan source. -/
theorem claim8_rest_day_response (fetchFails : Bool) (userId : Nat) (db : DB)
    (dp : Json) (dayName date : String)
    (hs : (jsGet (resolvePlan fetchFails userId db dp).1 "schedule").isNull = false)
    (hw : jsTruthy (jsGet (jsGet (resolvePlan fetchFails userId db dp).1 "schedule") dayName) = false) :
    todayHandler fetchFails userId db dp dayName date =
      .ok (.obj [("message", .str "No workout scheduled for today"),
                 ("date", .str date),
                 ("planSource", sourceJson (resolvePlan fetchFails userId db dp).2)]) := by
  unfold todayHandler
  simp [hs, hw]

/-- Witness for C8: a user plan scheduling only monday resolves tuesday to
the rest-day response carrying the date and source. -/
theorem claim8_witness :
    (jsGet (resolvePlan false 1 exDb1 (Json.obj [])).1 "schedule").isNull = false ∧
    jsTruthy (jsGet (jsGet (resolvePlan false 1 exDb1 (Json.obj [])).1 "schedule") "tuesday") = false ∧
    todayHandler false 1 exDb1 (Json.obj []) "tuesday" "2024-01-16" =
      .ok (.obj [("message", .str "No workout scheduled for today"),
                 ("date", .str "2024-01-16"),
                 ("planSource", sourceJson (resolvePlan false 1 exDb1 (Json.obj [])).2)]) :=
  ⟨rfl, rfl, claim8_rest_day_response false 1 exDb1 (Json.obj []) "tuesday" "2024-01-16" rfl rfl⟩

/-- Claim C9: the history listing is sorted by date descending, its length is
bounded by 10 when no limit is supplied and by the supplied positive limit
otherwise, and every returned row is a stored row of the requesting account
(whose payload is returned as stored, i.e. deserialized back into the
structure that was serialized on save). -/
theorem claim9_history_order_limit_deserialize (userId : Nat) (lp : Option Int)
    (db : DB) :
    List.Pairwise dateDesc (historyHandler userId lp db) ∧
    (lp = none → (historyHandler userId lp db).length ≤ 10) ∧
    (∀ n : Int, lp = some n → 0 < n →
      (historyHandler userId lp db).length ≤ n.toNat) ∧
    (∀ r ∈ historyHandler userId lp db, r ∈ db.workouts ∧ r.user_id = userId) := by
  refine ⟨pairwise_getWorkoutsByUser userId (historyLimit lp) db, ?_, ?_, ?_⟩
  · intro h
    subst h
    unfold historyHandler getWorkoutsByUser historyLimit
    simp only [show ¬((10 : Int) < 0) from by omega, ite_false]
    exact le_trans (List.length_take_le _ _) (by norm_num)
  · intro n hn hpos
    subst hn
    have hne : (n == (0 : Int)) = false := by
      rw [beq_eq_false_iff_ne]
      omega
    have hl : historyLimit (some n) = n := by
      unfold historyLimit
      simp [hne]
    unfold historyHandler getWorkoutsByUser
    rw [hl, if_neg (show ¬(n < 0) from by omega)]
    exact List.length_take_le _ _
  · intro r hr
    exact mem_getWorkoutsByUser hr

/-- Witness for C9: listing the interleaved store for account 1 is sorted,
within the default limit, and within an explicit limit of 1. -/
theorem claim9_witness :
    List.Pairwise dateDesc (historyHandler 1 none exDb5) ∧
    (historyHandler 1 none exDb5).length ≤ 10 ∧
    (historyHandler 1 (some 1) exDb5).length ≤ 1 :=
  ⟨(claim9_history_order_limit_deserialize 1 none exDb5).1,
   (claim9_history_order_limit_deserialize 1 none exDb5).2.1 rfl,
   (claim9_history_order_limit_deserialize 1 (some 1) exDb5).2.2.1 1 rfl (by omega)⟩

/-- Claim C10: an accepted completion inserts exactly one row whose stored
payload is the structure built from the submission (serialized on save,
parsed back on read — the identity pair on JSON trees), and every row a
later history listing returns is a stored row, payload unchanged; so a
retrieved completion deserializes to a structure equal to the stored one. -/
theorem claim10_save_retrieve_roundtrip (userId : Nat) (body : Json) (db : DB)
    (es : List Json)
    (hex : jsGet body "exercises" = Json.arr es)
    (hd : jsTruthy (jsGet body "date") = true)
    (hw : jsTruthy (jsGet body "workout") = true)
    (hnn : es.any Json.isNull = false) :
    (completeHandler userId body db).2.workouts = db.workouts ++
      [{ id := db.nextWorkoutId, user_id := userId, date := jsGet body "date",
         workout_data := buildWorkoutData (jsGet body "workout") es }] ∧
    (∀ limit r, r ∈ getWorkoutsByUser userId limit (completeHandler userId body db).2 →
      r ∈ (completeHandler userId body db).2.workouts) := by
  refine ⟨(completeHandler_accepts userId body db es hex hd hw hnn).2, ?_⟩
  intro limit r hr
  exact (mem_getWorkoutsByUser hr).1

/-- The round-trip submission of the spec's scenario: one Bench Press
exercise with one set of 8 reps at weight 135 and the note "felt good". -/
def exBody10 : Json :=
  .obj [("date", .str "2024-02-01"),
        ("workout", .obj [("name", .str "Chest Day")]),
        ("exercises", .arr [.obj [("name", .str "Bench Press"),
                                  ("sets", .arr [.obj [("reps", .num 8), ("weight", .num 135)]]),
                                  ("notes", .str "felt good")]])]

/-- The row the Bench Press submission stores. -/
def exRow10 : WorkoutRow :=
  { id := 1, user_id := 1, date := .str "2024-02-01",
    workout_data := .obj [("workoutName", .str "Chest Day"),
      ("exercises", .arr [.obj [("name", .str "Bench Press"),
                                ("sets", .arr [.obj [("reps", .num 8), ("weight", .num 135)]]),
                                ("notes", .str "felt good")]])] }

/-- Witness for C10: submitting the Bench Press workout into an empty store
and listing history returns exactly the stored row, with the payload equal
to the structure built from the submission. -/
theorem claim10_witness :
    (completeHandler 1 exBody10 exDb).2.workouts = exDb.workouts ++
      [{ id := exDb.nextWorkoutId, user_id := 1, date := jsGet exBody10 "date",
         workout_data := buildWorkoutData (jsGet exBody10 "workout")
           [.obj [("name", .str "Bench Press"),
                  ("sets", .arr [.obj [("reps", .num 8), ("weight", .num 135)]]),
                  ("notes", .str "felt good")]] }] ∧
    historyHandler 1 none (completeHandler 1 exBody10 exDb).2 = [exRow10] :=
  ⟨(claim10_save_retrieve_roundtrip 1 exBody10 exDb _ rfl rfl rfl rfl).1, rfl⟩

end SweatSync
